import Mathlib

/-
Verification of the columnar ReLu MLP circuit example (examples/mlp_4d.rs).

The file embeds the example shallowly: the circuit structure, the configure
phase and the synthesize phase are translated from the source; the library
layers it imports (Tensor, Affine1dConfig, EltwiseConfig, EltwiseTable, the
field codec and the mock prover) are not part of the sources and are modelled
from the specification, as marked on each such definition.
-/

/-- Order of the Pasta base field (halo2curves pasta::Fp) over which the
circuit is instantiated. -/
def pPasta : ℕ := 28948022309329048855892746252171976963363056481941560715954676764349967630337

/-- Field of circuit values. -/
abbrev Fp := ZMod pPasta

/-- Modelled from the spec: fieldutils::i32tofelt is missing from the sources;
per the data model, signed integers map to field elements by reduction modulo
the characteristic, negative values wrapping to characteristic minus the
absolute value. -/
def i32tofelt (z : ℤ) : Fp := (z : Fp)

/-- Compile-time constant LEN of the harness instantiation MyCircuit of F, 4, 14. -/
def LEN : ℕ := 4

/-- Compile-time constant BITS of the harness instantiation. -/
def BITS : ℕ := 14

/-- Modelled from the spec: the Tensor type is missing from the sources; a
quantized tensor is a flat list of signed integers together with a shape. -/
structure Tensor where
  data : List ℤ
  dims : List ℕ
deriving DecidableEq

/-- Row i of a tensor holding a row-major matrix of shape [rows, cols]. -/
def Tensor.row (t : Tensor) (i : ℕ) : List ℤ :=
  match t.dims with
  | [_r, c] => (t.data.drop (i * c)).take c
  | _ => []

/-- MyCircuit (source lines 33-45): a DNN trace is determined by the input
tensor and the kernel and bias tensors of the two affine layers. -/
structure MyCircuit where
  input : Tensor
  l0_params : Tensor × Tensor
  l2_params : Tensor × Tensor
deriving DecidableEq

/-- Circuit::without_witnesses for MyCircuit (source lines 53-55) returns
self.clone(), which for plain value data is the identity. -/
def MyCircuit.without_witnesses (c : MyCircuit) : MyCircuit := c

/-- Dot product of two integer vectors. -/
def dot (a b : List ℤ) : ℤ := (List.zipWith (fun x y => x * y) a b).sum

/-- Modelled from the spec: the forward value semantics of
Affine1dConfig::layout, missing from the sources; every output position i is
the dot product of kernel row i with the input, plus bias entry i. -/
def affineForward (kernel bias : Tensor) (x : List ℤ) : List ℤ :=
  (List.range LEN).map (fun i => dot (kernel.row i) x + bias.data.getD i 0)

/-- Modelled from the spec: the ReLu nonlinearity tabulated by the first
lookup table. -/
def reluInt (z : ℤ) : ℤ := max z 0

/-- Division of naturals rounding half away from zero. -/
def roundHalfAwayNat (n d : ℕ) : ℕ := (2 * n + d) / (2 * d)

/-- Modelled from the spec: the DivideBy nonlinearity divides by the constant
and rounds half away from zero, the rounding rule of the reference arithmetic. -/
def divRound (z : ℤ) (d : ℕ) : ℤ :=
  if 0 ≤ z then (roundHalfAwayNat z.natAbs d : ℤ) else -(roundHalfAwayNat z.natAbs d : ℤ)

/-- Truncating division toward zero, the behavior of f32::to_int_unchecked on
an exactly representable nonnegative quotient. -/
def truncDiv (z : ℤ) (d : ℕ) : ℤ :=
  if 0 ≤ z then ((z.natAbs / d : ℕ) : ℤ) else -((z.natAbs / d : ℕ) : ℤ)

/-- Lookup-table domain check: the BITS-bit signed range from -2^(BITS-1)
inclusive to 2^(BITS-1) exclusive. -/
def inDomain (z : ℤ) : Bool := decide (-(2 ^ (BITS - 1) : ℤ) ≤ z ∧ z < 2 ^ (BITS - 1))

/-- Columns of the constraint-system table. -/
inductive Column where
  | advice (i : ℕ)
  | instCol (i : ℕ)
  | fixedCol (i : ℕ)
deriving DecidableEq

/-- Modelled from the spec: the constraint-system facade consumed by the
configure phase; it tracks how many columns of each kind were allocated and
which columns have equality enabled. -/
structure ConstraintSystem where
  numAdvice : ℕ
  numInstance : ℕ
  numFixed : ℕ
  equality : List Column
deriving DecidableEq

/-- Fresh constraint system handed to the configure phase. -/
def ConstraintSystem.empty : ConstraintSystem := ⟨0, 0, 0, []⟩

/-- Allocation of a fresh advice column (cs.advice_column). -/
def advice_column (cs : ConstraintSystem) : ConstraintSystem × Column :=
  ({ cs with numAdvice := cs.numAdvice + 1 }, Column.advice cs.numAdvice)

/-- Allocation of the public instance column (cs.instance_column). -/
def instance_column (cs : ConstraintSystem) : ConstraintSystem × Column :=
  ({ cs with numInstance := cs.numInstance + 1 }, Column.instCol cs.numInstance)

/-- Allocation of a fresh fixed column backing a lookup table. -/
def fixed_column (cs : ConstraintSystem) : ConstraintSystem × Column :=
  ({ cs with numFixed := cs.numFixed + 1 }, Column.fixedCol cs.numFixed)

/-- Enabling equality on a column (cs.enable_equality). -/
def enable_equality (cs : ConstraintSystem) (c : Column) : ConstraintSystem :=
  { cs with equality := cs.equality ++ [c] }

/-- Identifier of a lookup-table handle: ReLu or DivideBy 128. -/
inductive TableRef where
  | relu
  | divideBy128
deriving DecidableEq

/-- Nonlinearity tabulated by each table handle. -/
def TableRef.fn : TableRef → ℤ → ℤ
  | TableRef.relu => reluInt
  | TableRef.divideBy128 => fun z => divRound z 128

/-- Modelled from the spec: EltwiseTable, missing from the sources, owns the
fixed input and output columns backing one lookup table; each row holds the
encodings of x and of f x over the BITS-bit signed domain. -/
structure EltwiseTable where
  which : TableRef
  tableInput : Column
  tableOutput : Column
deriving DecidableEq

/-- Modelled from the spec: EltwiseTable::configure allocates the two fixed
columns backing the table. -/
def EltwiseTable.configure (which : TableRef) (cs : ConstraintSystem) :
    ConstraintSystem × EltwiseTable :=
  let (cs1, ci) := fixed_column cs
  let (cs2, co) := fixed_column cs1
  (cs2, ⟨which, ci, co⟩)

/-- Modelled from the spec: Affine1dConfig is a stateless descriptor holding
only column coordinates for kernel, bias, output and intermediate values. -/
structure Affine1dConfig where
  kernel : List Column
  bias : List Column
  output : List Column
  intermediate : List Column
deriving DecidableEq

/-- Modelled from the spec: Affine1dConfig::configure records the supplied
column slices and declares the dot-product-plus-bias gate; it allocates no
new columns. -/
def Affine1dConfig.configure (cs : ConstraintSystem)
    (kernel bias output intermediate : List Column) :
    ConstraintSystem × Affine1dConfig :=
  (cs, ⟨kernel, bias, output, intermediate⟩)

/-- Modelled from the spec: EltwiseConfig records the input column slice and
the shared table handle, and declares one lookup per position; it allocates
no new columns. -/
structure EltwiseConfig where
  inputCols : List Column
  table : EltwiseTable
deriving DecidableEq

/-- Modelled from the spec: EltwiseConfig::configure records its arguments. -/
def EltwiseConfig.configure (cs : ConstraintSystem) (cols : List Column)
    (table : EltwiseTable) : ConstraintSystem × EltwiseConfig :=
  (cs, ⟨cols, table⟩)

/-- MyConfig (source lines 17-31). -/
structure MyConfig where
  relutable : EltwiseTable
  divtable : EltwiseTable
  l0 : Affine1dConfig
  l1 : EltwiseConfig
  l2 : Affine1dConfig
  l3 : EltwiseConfig
  l4 : EltwiseConfig
  public_output : Column
deriving DecidableEq

/-- Allocation of one equality-enabled advice column, the closure at source
lines 60-64. -/
def allocAdvice (cs : ConstraintSystem) : ConstraintSystem × Column :=
  let (cs1, col) := advice_column cs
  (enable_equality cs1 col, col)

/-- Allocation of n equality-enabled advice columns, the iterator at source
lines 60-64. -/
def allocAdvices : ℕ → ConstraintSystem → ConstraintSystem × List Column
  | 0, cs => (cs, [])
  | n + 1, cs =>
      let (cs1, col) := allocAdvice cs
      let (cs2, rest) := allocAdvices n cs1
      (cs2, col :: rest)

/-- MyCircuit::configure (source lines 59-120): allocates LEN + 3 advice
columns with equality, configures both tables, builds the five layer configs
over slices of the advice columns, then allocates the public instance column
with equality. -/
def configure (cs : ConstraintSystem) : ConstraintSystem × MyConfig :=
  let (cs1, advices) := allocAdvices (LEN + 3) cs
  let (cs2, relutable) := EltwiseTable.configure TableRef.relu cs1
  let (cs3, divtable) := EltwiseTable.configure TableRef.divideBy128 cs2
  let kernel := advices.take LEN
  let bias := (advices.drop (LEN + 2)).take 1
  let (cs4, l0) := Affine1dConfig.configure cs3 kernel bias
    ((advices.drop LEN).take 1) ((advices.drop (LEN + 1)).take 1)
  let (cs5, l1) := EltwiseConfig.configure cs4 (advices.take LEN) relutable
  let (cs6, l2) := Affine1dConfig.configure cs5 kernel bias
    ((advices.drop LEN).take 1) ((advices.drop (LEN + 1)).take 1)
  let (cs7, l3) := EltwiseConfig.configure cs6 (advices.take LEN) relutable
  let (cs8, l4) := EltwiseConfig.configure cs7 (advices.take LEN) divtable
  let (cs9, public_output) := instance_column cs8
  let cs10 := enable_equality cs9 public_output
  (cs10, ⟨relutable, divtable, l0, l1, l2, l3, l4, public_output⟩)

/-- Assigned cell: a fresh identifier allocated by the layouter together with
the integer value written into it. -/
structure Cell where
  id : ℕ
  value : ℤ
deriving DecidableEq

/-- IOType (spec section 9): layer input is either a tensor of fresh values or
a vector of previously assigned cells. -/
inductive IOType where
  | value (t : List ℤ)
  | prevAssigned (cells : List Cell)
deriving DecidableEq

/-- Opaque error type of the proof system (halo2 plonk::Error). -/
inductive PlonkError where
  | synthesisError
deriving DecidableEq

/-- Fallible layouter calls made by synthesize, in source order. -/
inductive CallSite where
  | reluTable
  | divTable
  | l1Layout
  | l3Layout
  | l4Layout
  | constrainInstanceAt (i : ℕ)
deriving DecidableEq

/-- Events recorded while laying out the circuit. -/
inductive SynthEvent where
  | tableLaid (which : TableRef) (rows : ℕ)
  | affineLaid (input : IOType) (kernel bias : Tensor) (out : List Cell)
  | eltwiseLaid (site : CallSite) (input : List Cell) (out : List Cell)
  | instanceBound (cell : Cell) (col : Column) (row : ℕ)
deriving DecidableEq

/-- Modelled from the spec: the layouter facade; it records region
assignments, table layouts, the copy constraints against the instance column,
and a trace of layout events. -/
structure Layouter where
  nextId : ℕ
  tables : List (TableRef × ℕ)
  regions : List (List ℤ)
  copies : List (ℤ × Column × ℕ)
  trace : List SynthEvent
deriving DecidableEq

/-- Fresh layouter handed to synthesize. -/
def Layouter.empty : Layouter := ⟨0, [], [], [], []⟩

/-- Failure oracle for the external layouter: which fallible calls return an
error. The mock-prover run fails at none of them. -/
structure LayoutEnv where
  fails : CallSite → Bool

/-- Environment in which every layouter call succeeds. -/
def happyEnv : LayoutEnv := ⟨fun _ => false⟩

/-- Environment in which exactly one layouter call fails. -/
def envFailOnly (s : CallSite) : LayoutEnv := ⟨fun t => decide (t = s)⟩

/-- Modelled from the spec: EltwiseTable::layout builds the physical table
exactly once per call, one row per element of the BITS-bit signed domain. -/
def EltwiseTable.layout (t : EltwiseTable) (env : LayoutEnv) (site : CallSite)
    (st : Layouter) : Layouter × Except PlonkError Unit :=
  if env.fails site then (st, Except.error PlonkError.synthesisError)
  else
    ({ st with
        tables := st.tables ++ [(t.which, 2 ^ BITS)],
        trace := st.trace ++ [SynthEvent.tableLaid t.which (2 ^ BITS)] },
     Except.ok ())

/-- Allocation of one fresh cell per value. -/
def allocCells (st : Layouter) (vals : List ℤ) : Layouter × List Cell :=
  let cells := vals.enum.map (fun p => Cell.mk (st.nextId + p.1) p.2)
  ({ st with nextId := st.nextId + vals.length }, cells)

/-- Underlying values of a layer input. -/
def IOType.values : IOType → List ℤ
  | IOType.value t => t
  | IOType.prevAssigned cells => cells.map Cell.value

/-- Modelled from the spec: Affine1dConfig::layout assigns kernel, bias,
input and output values into one region and returns the output cells
directly; its call sites (source lines 131-139 and 141-149) apply no
question-mark operator to the returned value. -/
def Affine1dConfig.layout (_cfg : Affine1dConfig) (input : IOType)
    (params : Tensor × Tensor) (st : Layouter) : Layouter × List Cell :=
  let x := input.values
  let out := affineForward params.1 params.2 x
  let (st1, cells) := allocCells st out
  ({ st1 with
      regions := st1.regions ++ [params.1.data ++ params.2.data ++ x ++ out],
      trace := st1.trace ++ [SynthEvent.affineLaid input params.1 params.2 cells] },
   cells)

/-- Modelled from the spec: EltwiseConfig::layout reuses the provided input
cells, assigns the tabulated function of each input value as the output, and
returns the output cells inside a result type; its call sites (source lines
140, 150, 151) carry the question-mark operator. -/
def EltwiseConfig.layout (cfg : EltwiseConfig) (env : LayoutEnv)
    (site : CallSite) (input : List Cell) (st : Layouter) :
    Layouter × Except PlonkError (List Cell) :=
  if env.fails site then (st, Except.error PlonkError.synthesisError)
  else
    let out := input.map (fun c => cfg.table.which.fn c.value)
    let (st1, cells) := allocCells st out
    ({ st1 with
        regions := st1.regions ++ [input.map Cell.value ++ out],
        trace := st1.trace ++ [SynthEvent.eltwiseLaid site input cells] },
     Except.ok cells)

/-- Modelled from the spec: Layouter::constrain_instance adds an equality
constraint between an assigned cell and one row of the instance column. -/
def constrain_instance (env : LayoutEnv) (cell : Cell) (col : Column)
    (row : ℕ) (st : Layouter) : Layouter × Except PlonkError Unit :=
  if env.fails (CallSite.constrainInstanceAt row) then
    (st, Except.error PlonkError.synthesisError)
  else
    ({ st with
        copies := st.copies ++ [(cell.value, col, row)],
        trace := st.trace ++ [SynthEvent.instanceBound cell col row] },
     Except.ok ())

/-- Outcome of running synthesize: normal return, an Err return, or a panic
raised by an unwrap. -/
inductive Outcome where
  | ok
  | errored (e : PlonkError)
  | panicked (e : PlonkError)
deriving DecidableEq

/-- Final loop of synthesize (source lines 152-156): enum_map over the output
cells calls constrain_instance and unwraps each result, so the first Err
aborts by panic instead of being returned. -/
def bindOutputs (env : LayoutEnv) (col : Column) :
    List (ℕ × Cell) → Layouter → Layouter × Option PlonkError
  | [], st => (st, none)
  | (i, c) :: rest, st =>
      match constrain_instance env c col i st with
      | (st1, Except.ok _) => bindOutputs env col rest st1
      | (st1, Except.error e) => (st1, some e)

/-- Result of the synthesize phase. -/
structure SynthResult where
  layouter : Layouter
  outcome : Outcome
deriving DecidableEq

/-- MyCircuit::synthesize (source lines 122-158), with the question-mark
operator written as explicit matches and the final unwrap recorded as a
panicked outcome. -/
def synthesize (c : MyCircuit) (config : MyConfig) (env : LayoutEnv) : SynthResult :=
  match config.relutable.layout env CallSite.reluTable Layouter.empty with
  | (st, Except.error e) => ⟨st, Outcome.errored e⟩
  | (st, Except.ok _) =>
    match config.divtable.layout env CallSite.divTable st with
    | (st, Except.error e) => ⟨st, Outcome.errored e⟩
    | (st, Except.ok _) =>
      let x0 := c.input
      let (st, x1) := config.l0.layout (IOType.value x0.data) c.l0_params st
      match config.l1.layout env CallSite.l1Layout x1 st with
      | (st, Except.error e) => ⟨st, Outcome.errored e⟩
      | (st, Except.ok x2) =>
        let (st, x3) := config.l2.layout (IOType.prevAssigned x2) c.l2_params st
        match config.l3.layout env CallSite.l3Layout x3 st with
        | (st, Except.error e) => ⟨st, Outcome.errored e⟩
        | (st, Except.ok x4) =>
          match config.l4.layout env CallSite.l4Layout x4 st with
          | (st, Except.error e) => ⟨st, Outcome.errored e⟩
          | (st, Except.ok x5) =>
            match bindOutputs env config.public_output x5.enum st with
            | (st, none) => ⟨st, Outcome.ok⟩
            | (st, some e) => ⟨st, Outcome.panicked e⟩

/-- Layer-0 kernel of runmlp (source lines 164-168); Tensor::new validates
that the element count matches the shape, which holds here. -/
def l0_kernel : Tensor :=
  ⟨[10, 0, 0, -1, 0, 10, 1, 0, 0, 1, 10, 0, 1, 0, 0, 10], [4, 4]⟩

/-- Layer-0 bias of runmlp (source line 169). -/
def l0_bias : Tensor := ⟨[0, 0, 0, 1], [1, 4]⟩

/-- Layer-2 kernel of runmlp (source lines 171-175). -/
def l2_kernel : Tensor :=
  ⟨[0, 3, 10, -1, 0, 10, 1, 0, 0, 1, 0, 12, 1, -2, 32, 0], [4, 4]⟩

/-- Layer-2 bias of runmlp (source line 178). -/
def l2_bias : Tensor := ⟨[0, 0, 0, 1], [1, 4]⟩

/-- Input tensor of runmlp (source line 177). -/
def mlpInput : Tensor := ⟨[-30, -21, 11, 40], [1, 4]⟩

/-- Circuit instance built by runmlp (source lines 180-185). -/
def harnessCircuit : MyCircuit :=
  ⟨mlpInput, (l0_kernel, l0_bias), (l2_kernel, l2_bias)⟩

/-- Config produced by the configure phase on a fresh constraint system. -/
def harnessConfig : MyConfig := (configure ConstraintSystem.empty).2

/-- Synthesis of a circuit against the configure-phase output, as the mock
prover performs it. -/
def runSynth (c : MyCircuit) (env : LayoutEnv) : SynthResult :=
  synthesize c harnessConfig env

/-- Public input computed by runmlp (source lines 187-194): the first three
entries round their quotient half away from zero (f32 round), the fourth
truncates toward zero (to_int_unchecked with no round call); the f32
quotients are exactly representable at these values, so integer arithmetic
models them exactly. -/
def public_input : List ℤ :=
  [divRound 531 128, divRound 103 128, divRound 4469 128, truncDiv 2849 128]

/-- Lookup soundness at one layout event: every value fed to an eltwise
lookup must lie in the table domain, else no witness satisfies the lookup. -/
def lookupOK : SynthEvent → Bool
  | SynthEvent.eltwiseLaid _ input _ => input.all (fun c => inDomain c.value)
  | _ => true

/-- Modelled from the spec: MockProver::run followed by assert_satisfied.
The witness is the one generated by synthesize; the affine gates and the
tabulated outputs hold for that witness by construction, so satisfaction
reduces to: synthesis completed normally, every lookup input lies in the
table domain, and every instance-equality binding matches the supplied
public input vector. -/
def mockSatisfied (c : MyCircuit) (pub : List Fp) : Bool :=
  let r := runSynth c happyEnv
  decide (r.outcome = Outcome.ok) &&
    r.layouter.trace.all lookupOK &&
    r.layouter.copies.all (fun pr => decide (pub.get? pr.2.2 = some (i32tofelt pr.1)))

/-- C1: for the fixed harness instance, the circuit synthesized by runmlp is
satisfied by the mock prover against exactly the public input vector
[4, 1, 35, 22]: assert_satisfied succeeds on the vector the harness encodes,
and that vector equals [4, 1, 35, 22] in the field. -/
theorem runmlp_assert_satisfied :
    mockSatisfied harnessCircuit (List.map i32tofelt public_input) = true ∧
      List.map i32tofelt public_input = [(4 : Fp), 1, 35, 22] := by
  constructor <;> decide

/-- C2: every public input vector that differs from the correct forward-pass
result [4, 1, 35, 22] at some entry i makes the mock-prover satisfaction
check fail on the harness circuit. -/
theorem mock_prover_rejects_differing_input (pub : List Fp) (i : ℕ)
    (hi : i < LEN) (hne : pub.get? i ≠ ([4, 1, 35, 22] : List Fp).get? i) :
    mockSatisfied harnessCircuit pub = false := by
  have hred : mockSatisfied harnessCircuit pub =
      (decide (pub.get? 0 = some (i32tofelt 4)) &&
        (decide (pub.get? 1 = some (i32tofelt 1)) &&
          (decide (pub.get? 2 = some (i32tofelt 35)) &&
            (decide (pub.get? 3 = some (i32tofelt 22)) && true)))) := rfl
  have hi4 : i < 4 := hi
  interval_cases i
  · have hk : decide (pub.get? 0 = some (i32tofelt 4)) = false := by
      apply decide_eq_false
      intro h
      apply hne
      rw [h]
      decide
    rw [hred, hk]
    simp
  · have hk : decide (pub.get? 1 = some (i32tofelt 1)) = false := by
      apply decide_eq_false
      intro h
      apply hne
      rw [h]
      decide
    rw [hred, hk]
    simp
  · have hk : decide (pub.get? 2 = some (i32tofelt 35)) = false := by
      apply decide_eq_false
      intro h
      apply hne
      rw [h]
      decide
    rw [hred, hk]
    simp
  · have hk : decide (pub.get? 3 = some (i32tofelt 22)) = false := by
      apply decide_eq_false
      intro h
      apply hne
      rw [h]
      decide
    rw [hred, hk]
    simp

/-- Witness for C2: the vector [5, 1, 35, 22] differs at entry 0 and is
rejected. -/
theorem mock_prover_rejects_differing_input_check :
    (0 < LEN ∧
        ([(5 : Fp), 1, 35, 22] : List Fp).get? 0 ≠ ([4, 1, 35, 22] : List Fp).get? 0) ∧
      mockSatisfied harnessCircuit [5, 1, 35, 22] = false :=
  ⟨⟨by decide, by decide⟩,
   mock_prover_rejects_differing_input [5, 1, 35, 22] 0 (by decide) (by decide)⟩

/-- C3: the four entries of the public input vector computed by the harness
equal round-half-away-from-zero of the raw pre-rescale outputs 531, 103,
4469, 2849 over 128, that is [4, 1, 35, 22]; the truncation used for the
fourth leg coincides with rounding at this value. -/
theorem runmlp_public_input_rounding :
    public_input =
        [divRound 531 128, divRound 103 128, divRound 4469 128, divRound 2849 128] ∧
      public_input = [4, 1, 35, 22] := by
  constructor <;> decide

/-- C4: synthesize lays out both lookup tables before any layer, threads the
computation affine0, ReLu, affine1, ReLu, rescale with each layer receiving
the output cells of the previous one (the second affine layer receives the
outputs of the first ReLu as prevAssigned cell references), and finally binds
output cell i to the public instance column at row i for every i below LEN;
the only copy constraints added are those four instance bindings. -/
theorem synthesize_layout_order :
    (runSynth harnessCircuit happyEnv).layouter.trace =
        [SynthEvent.tableLaid TableRef.relu 16384,
         SynthEvent.tableLaid TableRef.divideBy128 16384,
         SynthEvent.affineLaid (IOType.value [-30, -21, 11, 40]) l0_kernel l0_bias
           [⟨0, -340⟩, ⟨1, -199⟩, ⟨2, 89⟩, ⟨3, 371⟩],
         SynthEvent.eltwiseLaid CallSite.l1Layout
           [⟨0, -340⟩, ⟨1, -199⟩, ⟨2, 89⟩, ⟨3, 371⟩]
           [⟨4, 0⟩, ⟨5, 0⟩, ⟨6, 89⟩, ⟨7, 371⟩],
         SynthEvent.affineLaid (IOType.prevAssigned [⟨4, 0⟩, ⟨5, 0⟩, ⟨6, 89⟩, ⟨7, 371⟩])
           l2_kernel l2_bias [⟨8, 519⟩, ⟨9, 89⟩, ⟨10, 4452⟩, ⟨11, 2849⟩],
         SynthEvent.eltwiseLaid CallSite.l3Layout
           [⟨8, 519⟩, ⟨9, 89⟩, ⟨10, 4452⟩, ⟨11, 2849⟩]
           [⟨12, 519⟩, ⟨13, 89⟩, ⟨14, 4452⟩, ⟨15, 2849⟩],
         SynthEvent.eltwiseLaid CallSite.l4Layout
           [⟨12, 519⟩, ⟨13, 89⟩, ⟨14, 4452⟩, ⟨15, 2849⟩]
           [⟨16, 4⟩, ⟨17, 1⟩, ⟨18, 35⟩, ⟨19, 22⟩],
         SynthEvent.instanceBound ⟨16, 4⟩ (Column.instCol 0) 0,
         SynthEvent.instanceBound ⟨17, 1⟩ (Column.instCol 0) 1,
         SynthEvent.instanceBound ⟨18, 35⟩ (Column.instCol 0) 2,
         SynthEvent.instanceBound ⟨19, 22⟩ (Column.instCol 0) 3] ∧
      (runSynth harnessCircuit happyEnv).layouter.copies =
        [(4, Column.instCol 0, 0), (1, Column.instCol 0, 1),
         (35, Column.instCol 0, 2), (22, Column.instCol 0, 3)] := by
  constructor <;> decide

/-- C5: each of the two lookup tables is laid out exactly once per synthesis,
with a physical row count equal to the domain size 2 to the BITS, although
the ReLu table handle is shared by the two activation configs l1 and l3. -/
theorem tables_laid_out_once (c : MyCircuit) :
    (runSynth c happyEnv).layouter.tables =
        [(TableRef.relu, 2 ^ BITS), (TableRef.divideBy128, 2 ^ BITS)] ∧
      harnessConfig.l1.table = harnessConfig.relutable ∧
      harnessConfig.l3.table = harnessConfig.relutable :=
  ⟨rfl, rfl, rfl⟩

/-- C6: configure allocates exactly LEN + 3 advice columns, enables equality
on every one of them, and allocates exactly one public instance column with
equality enabled; the equality list holds exactly those columns. The
configure phase takes only the constraint system, so it reads no witness
data. -/
theorem configure_column_allocation :
    (configure ConstraintSystem.empty).1.numAdvice = LEN + 3 ∧
      (configure ConstraintSystem.empty).1.numInstance = 1 ∧
      (configure ConstraintSystem.empty).1.equality =
        (List.range (LEN + 3)).map Column.advice ++ [Column.instCol 0] := by
  refine ⟨rfl, rfl, ?_⟩
  decide

/-- C7: the two affine-layer configs reference the same kernel column slice,
the advice columns 0 to LEN - 1, and the same bias column slice, the single
advice column LEN + 2. -/
theorem affine_configs_share_param_columns :
    harnessConfig.l0.kernel = harnessConfig.l2.kernel ∧
      harnessConfig.l0.bias = harnessConfig.l2.bias ∧
      harnessConfig.l0.kernel = (List.range LEN).map Column.advice ∧
      harnessConfig.l0.bias = [Column.advice (LEN + 2)] := by
  decide

/-- Counterexample to C8: when the final constrain_instance call at row 0
fails, synthesize does not return the error as an Err value; the unwrap at
source line 155 turns it into a panic. -/
theorem final_binding_panics_instead_of_err :
    (runSynth harnessCircuit (envFailOnly (CallSite.constrainInstanceAt 0))).outcome =
        Outcome.panicked PlonkError.synthesisError ∧
      (runSynth harnessCircuit (envFailOnly (CallSite.constrainInstanceAt 0))).outcome ≠
        Outcome.errored PlonkError.synthesisError := by
  constructor <;> decide

/-- C8 as amended: an error from either table layout or from any of the three
eltwise layer layouts is propagated up and returned by synthesize as an Err
value; the two affine layouts return their output cells directly, and an
error from the final binding of output cells to the public instance column
is unwrapped into a panic rather than returned. -/
theorem synthesize_error_routing :
    ∀ (c : MyCircuit) (s : CallSite),
      s ∈ [CallSite.reluTable, CallSite.divTable, CallSite.l1Layout,
           CallSite.l3Layout, CallSite.l4Layout] →
      (synthesize c harnessConfig (envFailOnly s)).outcome =
        Outcome.errored PlonkError.synthesisError := by
  intro c s hs
  fin_cases hs <;> rfl

/-- Witness for C8 as amended: a failing ReLu table layout is returned as an
Err value. -/
theorem synthesize_error_routing_check :
    (CallSite.reluTable ∈ [CallSite.reluTable, CallSite.divTable, CallSite.l1Layout,
        CallSite.l3Layout, CallSite.l4Layout]) ∧
      (synthesize harnessCircuit harnessConfig (envFailOnly CallSite.reluTable)).outcome =
        Outcome.errored PlonkError.synthesisError :=
  ⟨by decide,
   synthesize_error_routing harnessCircuit CallSite.reluTable (by decide)⟩

/-- C9: synthesis and the satisfaction verdict are deterministic functions of
the circuit data and public input: runs on equal inputs produce identical
layouter states (all cell assignments) and identical verdicts. -/
theorem synthesize_deterministic (c1 c2 : MyCircuit) (pub1 pub2 : List Fp)
    (hc : c1 = c2) (hp : pub1 = pub2) :
    (runSynth c1 happyEnv).layouter = (runSynth c2 happyEnv).layouter ∧
      mockSatisfied c1 pub1 = mockSatisfied c2 pub2 := by
  subst hc
  subst hp
  exact ⟨rfl, rfl⟩

/-- Witness for C9: two runs on the harness instance agree. -/
theorem synthesize_deterministic_check :
    harnessCircuit = harnessCircuit ∧
      List.map i32tofelt public_input = List.map i32tofelt public_input ∧
      ((runSynth harnessCircuit happyEnv).layouter =
          (runSynth harnessCircuit happyEnv).layouter ∧
        mockSatisfied harnessCircuit (List.map i32tofelt public_input) =
          mockSatisfied harnessCircuit (List.map i32tofelt public_input)) :=
  ⟨rfl, rfl,
   synthesize_deterministic harnessCircuit harnessCircuit
     (List.map i32tofelt public_input) (List.map i32tofelt public_input) rfl rfl⟩

/-- C10: without_witnesses returns the circuit itself, still carrying the
full witness data: the input tensor and the kernel and bias tensors of both
layers. -/
theorem without_witnesses_returns_self (c : MyCircuit) :
    c.without_witnesses = c ∧
      c.without_witnesses.input = c.input ∧
      c.without_witnesses.l0_params = c.l0_params ∧
      c.without_witnesses.l2_params = c.l2_params :=
  ⟨rfl, rfl, rfl, rfl⟩
